import Mathlib

set_option autoImplicit false

/-
Shallow embedding of tools/hcp-node-autoscaling/main.go.

Go maps of type map[string]string are modelled as association lists
(List (String × String)); a nil Go map is distinguished from an empty one
with Option, because hasRequiredAnnotations branches on nil explicitly.
Go's two-valued map lookup v, ok := m[k] is modelled as Option String.
-/

/-- First-match lookup in an association list, modelling Go map indexing
(maps produced by the program have unique keys). -/
def lookupStr (l : List (String × String)) (k : String) : Option String :=
  match l with
  | [] => none
  | (k', v) :: rest => if k' == k then some v else lookupStr rest k

/-- Lookup through a possibly-nil Go map: indexing a nil map yields
the zero value with ok = false, i.e. none. -/
def annLookup (annots : Option (List (String × String))) (k : String) : Option String :=
  match annots with
  | none => none
  | some l => lookupStr l k

/-- The fields of hypershiftv1beta1.HostedCluster that main.go reads:
Name, Labels, Annotations (the latter kept as an Option to model a nil map). -/
structure HostedCluster where
  name : String
  labels : List (String × String)
  annots : Option (List (String × String))

/-- categorizeCluster from main.go (lines 357-373): determines the migration
category for a hosted cluster from its annotation map. -/
def categorizeCluster (hc : HostedCluster) : String :=
  if (annLookup hc.annots "hypershift.openshift.io/cluster-size-override").isSome then
    "needs-removal"
  else
    let topology := annLookup hc.annots "hypershift.openshift.io/topology"
    let autoScaling := annLookup hc.annots "hypershift.openshift.io/resource-based-cp-auto-scaling"
    let hasCorrectTopology := topology == some "dedicated-request-serving-components"
    let hasCorrectAutoScaling := autoScaling == some "true"
    if hasCorrectTopology && hasCorrectAutoScaling then "already-configured"
    else "ready-for-migration"

/-- hasRequiredAnnotations from main.go (lines 852-863): the sync verifier's
satisfaction predicate, with its explicit nil-map guard. -/
def hasRequiredAnnotations (hc : HostedCluster) : Bool :=
  match hc.annots with
  | none => false
  | some l =>
    let topology := lookupStr l "hypershift.openshift.io/topology"
    let autoScaling := lookupStr l "hypershift.openshift.io/resource-based-cp-auto-scaling"
    topology == some "dedicated-request-serving-components" && autoScaling == some "true"

/-- hostedClusterAuditInfo from main.go (lines 36-44). -/
structure hostedClusterAuditInfo where
  clusterID : String
  clusterName : String
  nspace : String
  currentSize : String
  category : String
  labels : List (String × String)
  annots : Option (List (String × String))

/-- auditError from main.go (lines 55-58). -/
structure auditError where
  nspace : String
  error : String

/-- auditResults from main.go (lines 46-53). -/
structure auditResults where
  mgmtClusterID : String
  totalScanned : Nat
  needsLabelRemoval : List hostedClusterAuditInfo
  readyForMigration : List hostedClusterAuditInfo
  alreadyConfigured : List hostedClusterAuditInfo
  errors : List auditError

/-- getHostedClusterInNamespace from main.go (lines 337-354): the Go code
receives the list of HostedClusters of one namespace and demands exactly one.
The external List call is abstracted into the records argument. -/
def getHostedClusterInNamespace (records : List HostedCluster) : Except String HostedCluster :=
  match records with
  | [] => Except.error "no HostedCluster found"
  | [hc] => Except.ok hc
  | _ :: _ :: _ =>
    Except.error ("found " ++ toString records.length ++ " HostedClusters, expected 1")

/-- auditNamespace from main.go (lines 314-334): resolves the single record of
a namespace and builds its audit entry; Go map indexing of Labels defaults to "". -/
def auditNamespace (nspace : String) (records : List HostedCluster) :
    Except String hostedClusterAuditInfo :=
  match getHostedClusterInNamespace records with
  | Except.error e => Except.error e
  | Except.ok hc =>
    Except.ok
      { clusterID := (lookupStr hc.labels "api.openshift.com/id").getD ""
        clusterName := hc.name
        nspace := nspace
        currentSize := (lookupStr hc.labels "hypershift.openshift.io/hosted-cluster-size").getD ""
        category := categorizeCluster hc
        labels := hc.labels
        annots := hc.annots }

/-- The switch statement of auditOpts.run (main.go lines 273-280) appending a
classified record to its bucket; a Go switch on strings is a first-match
equality chain. -/
def addToBucket (acc : auditResults) (info : hostedClusterAuditInfo) : auditResults :=
  if info.category == "needs-removal" then
    { acc with needsLabelRemoval := acc.needsLabelRemoval ++ [info] }
  else if info.category == "ready-for-migration" then
    { acc with readyForMigration := acc.readyForMigration ++ [info] }
  else if info.category == "already-configured" then
    { acc with alreadyConfigured := acc.alreadyConfigured ++ [info] }
  else acc

/-- The namespace loop of auditOpts.run (main.go lines 263-281): an error
appends one entry to the error list and the loop continues; a resolved record
is appended to the bucket of its category. -/
def scanLoop (recordsOf : String → List HostedCluster) :
    List String → auditResults → auditResults
  | [], acc => acc
  | ns :: rest, acc =>
    match auditNamespace ns (recordsOf ns) with
    | Except.error e =>
      scanLoop recordsOf rest { acc with errors := acc.errors ++ [⟨ns, e⟩] }
    | Except.ok info =>
      scanLoop recordsOf rest (addToBucket acc info)

/-- auditOpts.run, scan portion (main.go lines 255-285): starts from empty
buckets, runs the namespace loop, then sets TotalScanned to the sum of the
three bucket sizes. -/
def runScan (mgmtID : String) (recordsOf : String → List HostedCluster)
    (namespaces : List String) : auditResults :=
  let r := scanLoop recordsOf namespaces
    { mgmtClusterID := mgmtID
      totalScanned := 0
      needsLabelRemoval := []
      readyForMigration := []
      alreadyConfigured := []
      errors := [] }
  { r with totalScanned :=
      r.needsLabelRemoval.length + r.readyForMigration.length + r.alreadyConfigured.length }

/-- applyFilter from main.go (lines 376-394): rewrites the results to a single
requested bucket, carrying MgmtClusterID and Errors over; any other filter
string returns the results unchanged. -/
def applyFilter (showOnly : String) (results : auditResults) : auditResults :=
  let filtered : auditResults :=
    { mgmtClusterID := results.mgmtClusterID
      totalScanned := 0
      needsLabelRemoval := []
      readyForMigration := []
      alreadyConfigured := []
      errors := results.errors }
  if showOnly == "needs-removal" then
    { filtered with
        needsLabelRemoval := results.needsLabelRemoval
        totalScanned := results.needsLabelRemoval.length }
  else if showOnly == "ready-for-migration" then
    { filtered with
        readyForMigration := results.readyForMigration
        totalScanned := results.readyForMigration.length }
  else results

/-
Document patcher (patchManifestWork, main.go lines 742-791).

A generic JSON value as produced by json.Unmarshal into
map[string]interface\x7b\x7d: objects become string-keyed maps, modelled as
association lists with unique keys. Numeric payloads are abstracted to Int;
no logic of the tool inspects numbers.
-/

/-- Generic JSON value after json.Unmarshal. -/
inductive Json where
  | null
  | bool (b : Bool)
  | num (n : Int)
  | str (s : String)
  | arr (elems : List Json)
  | obj (fields : List (String × Json))

/-- First-match lookup of a key in a JSON object's fields, modelling Go map
indexing on the unmarshalled map. -/
def lookupJ (k : String) : List (String × Json) → Option Json
  | [] => none
  | (k', v) :: rest => if k' == k then some v else lookupJ k rest

/-- Go map assignment m[k] = v on the unmarshalled object: replaces the
binding of k in place if present, otherwise adds it. -/
def setKey (k : String) (v : Json) : List (String × Json) → List (String × Json)
  | [] => [(k, v)]
  | (k', v') :: rest => if k' == k then (k, v) :: rest else (k', v') :: setKey k v rest

/-- The type assertion x.(map[string]interface\x7b\x7d) with the !ok branch
creating a fresh empty map, as done for metadata and for its annotation map
in patchManifestWork. -/
def getObj (k : String) (fields : List (String × Json)) : List (String × Json) :=
  match lookupJ k fields with
  | some (Json.obj m) => m
  | _ => []

/-- The mutation patchManifestWork performs on the one matched manifest
object (main.go lines 758-771): deep-ensure metadata.annotations exists and
set the two target keys in order. -/
def patchHostedClusterFields (manifestData : List (String × Json)) : List (String × Json) :=
  let metadata := getObj "metadata" manifestData
  let anns := getObj "annotations" metadata
  let anns1 := setKey "hypershift.openshift.io/topology"
    (Json.str "dedicated-request-serving-components") anns
  let anns2 := setKey "hypershift.openshift.io/resource-based-cp-auto-scaling"
    (Json.str "true") anns1
  setKey "metadata" (Json.obj (setKey "annotations" (Json.obj anns2) metadata)) manifestData

/-- One element of manifestWork.Spec.Workload.Manifests: its Raw bytes are
either nil, bytes that json.Unmarshal rejects, or bytes unmarshalling to a
JSON value (possibly not an object). -/
inductive RawManifest where
  | nilRaw
  | undecodable (raw : String)
  | decoded (value : Json)

/-- The match condition of the loop in patchManifestWork: the element
unmarshals into a map and its kind field type-asserts to the string
"HostedCluster"; nil Raw, undecodable bytes, non-objects and other kinds
all fall to continue. -/
def isHostedClusterManifest : RawManifest → Bool
  | RawManifest.decoded (Json.obj fields) =>
    match lookupJ "kind" fields with
    | some (Json.str k) => k == "HostedCluster"
    | _ => false
  | _ => false

/-- In-place re-serialization of the one matched element with its patched
fields (main.go lines 773-778). -/
def patchManifestElement : RawManifest → RawManifest
  | RawManifest.decoded (Json.obj fields) =>
    RawManifest.decoded (Json.obj (patchHostedClusterFields fields))
  | m => m

/-- The manifest loop of patchManifestWork (main.go lines 742-785): patch the
first matching element and stop; if none matches, fail with the not-found
error. The surrounding Get and Update calls are external collaborators. -/
def patchManifestWork : List RawManifest → Except String (List RawManifest)
  | [] => Except.error "HostedCluster not found in ManifestWork manifests"
  | m :: rest =>
    if isHostedClusterManifest m then Except.ok (patchManifestElement m :: rest)
    else (patchManifestWork rest).map (fun ms => m :: ms)

/-
Sync verifier (waitForSync, main.go lines 795-837).

The loop is embedded over a finite trace of select-arm outcomes: each event is
either an observation of ctx.Done, or one ticker firing. A tick carries the
outcome of the fetch made on that tick and the value of
time.Now().After(deadline) at the moment the loop body checks it.
-/

/-- Outcome of the getHostedClusterFromMgmt call on one tick: the call errors,
or it returns a record for which hasRequiredAnnotations is false, or one for
which it is true. -/
inductive FetchOutcome where
  | fetchErr
  | notSynced
  | synced
deriving DecidableEq

/-- One iteration's select-arm outcome in waitForSync. -/
inductive Event where
  | cancel
  | tick (outcome : FetchOutcome) (afterDeadline : Bool)
deriving DecidableEq

/-- Terminal outcome of waitForSync; the two timeout constructors keep the two
distinct Go error messages apart. -/
inductive SyncOutcome where
  | success
  | cancelled
  | timedOutFetch
  | timedOutUnsynced
deriving DecidableEq

/-- Whether a terminal outcome is one of the two timeout failures. -/
def SyncOutcome.isTimeout : SyncOutcome → Bool
  | SyncOutcome.timedOutFetch => true
  | SyncOutcome.timedOutUnsynced => true
  | _ => false

/-- The error value waitForSync returns for each terminal outcome
(none for success), with the literal messages of main.go. -/
def syncErrorMessage : SyncOutcome → Option String
  | SyncOutcome.success => none
  | SyncOutcome.cancelled => some "context cancelled"
  | SyncOutcome.timedOutFetch => some "timeout waiting for sync after 5m0s"
  | SyncOutcome.timedOutUnsynced => some "timeout: annotations did not sync after 5m0s"

/-- waitForSync's loop (main.go lines 808-836) over a finite event trace:
cancellation returns immediately; on a tick, a failed fetch surfaces the
timeout if the deadline has passed and otherwise keeps polling, a satisfied
fetch returns success unconditionally, an unsatisfied fetch surfaces the
timeout if the deadline has passed and otherwise keeps polling. An exhausted
trace means the loop is still polling (none). -/
def waitForSync : List Event → Option SyncOutcome
  | [] => none
  | Event.cancel :: _ => some SyncOutcome.cancelled
  | Event.tick outcome afterDeadline :: rest =>
    match outcome with
    | FetchOutcome.fetchErr =>
      if afterDeadline then some SyncOutcome.timedOutFetch else waitForSync rest
    | FetchOutcome.synced => some SyncOutcome.success
    | FetchOutcome.notSynced =>
      if afterDeadline then some SyncOutcome.timedOutUnsynced else waitForSync rest

/-- Modelled from the spec: the claimed variant of the polling loop in which
each tick re-checks the deadline before the fetch as well as after it, so a
tick arriving after the deadline is cut off before its fetch is evaluated.
This definition follows the claim's words, not the source, and exists only to
be compared with waitForSync. -/
def waitForSyncPreCheck : List Event → Option SyncOutcome
  | [] => none
  | Event.cancel :: _ => some SyncOutcome.cancelled
  | Event.tick outcome afterDeadline :: rest =>
    if afterDeadline then some SyncOutcome.timedOutUnsynced
    else
      match outcome with
      | FetchOutcome.synced => some SyncOutcome.success
      | _ => waitForSyncPreCheck rest

/-
Migration orchestrator (migrateClusters and migrateCluster,
main.go lines 681-725).

The two store interactions of one candidate are abstracted as oracles:
patchOf gives the error of the patchManifestWork call (none for success), and
syncOf gives the terminal outcome of the waitForSync call; nowOf is the
time.Now().Format(time.RFC3339) read on that candidate's success.
-/

/-- migrationResult from main.go (lines 71-77). -/
structure migrationResult where
  clusterID : String
  clusterName : String
  status : String
  error : String
  verifiedAt : String
deriving DecidableEq

/-- migrateCluster from main.go (lines 702-725): patch failure records the
patch error and returns before any verification; otherwise the verifier's
outcome decides between success with a timestamp and failure with the
verifier's error. -/
def migrateCluster (patchErr : Option String) (sync : SyncOutcome) (now : String)
    (info : hostedClusterAuditInfo) : migrationResult :=
  match patchErr with
  | some e =>
    { clusterID := info.clusterID
      clusterName := info.clusterName
      status := "failed"
      error := "failed to patch ManifestWork: " ++ e
      verifiedAt := "" }
  | none =>
    match syncErrorMessage sync with
    | some e =>
      { clusterID := info.clusterID
        clusterName := info.clusterName
        status := "failed"
        error := "sync verification failed: " ++ e
        verifiedAt := "" }
    | none =>
      { clusterID := info.clusterID
        clusterName := info.clusterName
        status := "success"
        error := ""
        verifiedAt := now }

/-- migrateClusters from main.go (lines 681-699): one result per candidate,
appended in input order; no candidate's outcome stops the loop. -/
def migrateClusters (patchOf : hostedClusterAuditInfo → Option String)
    (syncOf : hostedClusterAuditInfo → SyncOutcome)
    (nowOf : hostedClusterAuditInfo → String)
    (candidates : List hostedClusterAuditInfo) : List migrationResult :=
  candidates.map (fun c => migrateCluster (patchOf c) (syncOf c) (nowOf c) c)

/-
Helper lemmas about the association-list model of Go maps.
-/

theorem lookupJ_setKey_self (k : String) (v : Json) (l : List (String × Json)) :
    lookupJ k (setKey k v l) = some v := by
  induction l with
  | nil => simp [setKey, lookupJ]
  | cons p rest ih =>
    obtain ⟨k', v'⟩ := p
    cases hkk : (k' == k) with
    | true => simp [setKey, hkk, lookupJ]
    | false => simp [setKey, hkk, lookupJ, ih]

theorem lookupJ_setKey_other (k k' : String) (hk : (k' == k) = false) (v : Json)
    (l : List (String × Json)) : lookupJ k' (setKey k v l) = lookupJ k' l := by
  have hk2 : (k == k') = false := by
    cases h : (k == k') with
    | true =>
      have he := eq_of_beq h
      subst he
      simp at hk
    | false => rfl
  induction l with
  | nil => simp [setKey, lookupJ, hk2]
  | cons p rest ih =>
    obtain ⟨k'', v''⟩ := p
    cases hkk : (k'' == k) with
    | true =>
      have hke : k'' = k := eq_of_beq hkk
      subst hke
      simp [setKey, hkk, lookupJ, hk2]
    | false => simp [setKey, hkk, lookupJ, ih]

theorem setKey_lookupJ_self (k : String) (v : Json) (l : List (String × Json))
    (h : lookupJ k l = some v) : setKey k v l = l := by
  induction l with
  | nil => simp [lookupJ] at h
  | cons p rest ih =>
    obtain ⟨k', v'⟩ := p
    cases hkk : (k' == k) with
    | true =>
      have hk : k' = k := eq_of_beq hkk
      subst hk
      simp [lookupJ, hkk] at h
      simp [setKey, hkk, h]
    | false =>
      simp [lookupJ, hkk] at h
      simp [setKey, hkk, ih h]

theorem getObj_setKey_self (k : String) (m l : List (String × Json)) :
    getObj k (setKey k (Json.obj m) l) = m := by
  simp [getObj, lookupJ_setKey_self]

theorem setKey_setKey_same (k : String) (v : Json) (l : List (String × Json)) :
    setKey k v (setKey k v l) = setKey k v l :=
  setKey_lookupJ_self k v (setKey k v l) (lookupJ_setKey_self k v l)

theorem setKey_absorb (k1 k2 : String) (hk : (k1 == k2) = false) (v1 v2 : Json)
    (l : List (String × Json)) :
    setKey k1 v1 (setKey k2 v2 (setKey k1 v1 l)) = setKey k2 v2 (setKey k1 v1 l) := by
  apply setKey_lookupJ_self
  rw [lookupJ_setKey_other k2 k1 hk]
  exact lookupJ_setKey_self k1 v1 l

/-
Helper lemmas about the document patcher.
-/

theorem patchHostedClusterFields_idem (fields : List (String × Json)) :
    patchHostedClusterFields (patchHostedClusterFields fields)
      = patchHostedClusterFields fields := by
  have hne : ("hypershift.openshift.io/topology"
      == "hypershift.openshift.io/resource-based-cp-auto-scaling") = false := by decide
  simp only [patchHostedClusterFields, getObj_setKey_self]
  rw [setKey_absorb _ _ hne, setKey_setKey_same, setKey_setKey_same, setKey_setKey_same]

theorem patchManifestElement_idem (m : RawManifest) :
    patchManifestElement (patchManifestElement m) = patchManifestElement m := by
  cases m with
  | nilRaw => rfl
  | undecodable raw => rfl
  | decoded j =>
    cases j with
    | obj fields => simp [patchManifestElement, patchHostedClusterFields_idem]
    | null => rfl
    | bool b => rfl
    | num n => rfl
    | str s => rfl
    | arr elems => rfl

theorem isHostedClusterManifest_patch (m : RawManifest) :
    isHostedClusterManifest (patchManifestElement m) = isHostedClusterManifest m := by
  cases m with
  | nilRaw => rfl
  | undecodable raw => rfl
  | decoded j =>
    cases j with
    | obj fields =>
      simp only [patchManifestElement, isHostedClusterManifest, patchHostedClusterFields]
      rw [lookupJ_setKey_other "metadata" "kind" (by decide)]
    | null => rfl
    | bool b => rfl
    | num n => rfl
    | str s => rfl
    | arr elems => rfl

theorem patchManifestWork_error_iff (ms : List RawManifest) :
    (patchManifestWork ms
        = Except.error "HostedCluster not found in ManifestWork manifests")
      ↔ ∀ m ∈ ms, isHostedClusterManifest m = false := by
  induction ms with
  | nil => simp [patchManifestWork]
  | cons m rest ih =>
    cases hm : isHostedClusterManifest m with
    | true =>
      simp only [patchManifestWork, hm, if_true]
      constructor
      · intro h; exact absurd h (by simp)
      · intro h; exact absurd (h m (List.mem_cons_self m rest)) (by simp [hm])
    | false =>
      have step : patchManifestWork (m :: rest)
          = (patchManifestWork rest).map (fun ms' => m :: ms') := by
        simp [patchManifestWork, hm]
      rw [step]
      cases hrest : patchManifestWork rest with
      | error e =>
        rw [hrest] at ih
        simp only [Except.map]
        constructor
        · intro h m' hm'
          rcases List.mem_cons.mp hm' with h' | h'
          · rw [h']; exact hm
          · exact ih.mp h m' h'
        · intro h
          exact ih.mpr (fun m' hm' => h m' (List.mem_cons_of_mem m hm'))
      | ok l =>
        rw [hrest] at ih
        simp only [Except.map]
        constructor
        · intro h; exact absurd h (by simp)
        · intro h
          exact absurd (ih.mpr (fun m' hm' => h m' (List.mem_cons_of_mem m hm'))) (by simp)

theorem patchManifestWork_first_match (pre : List RawManifest) (el : RawManifest)
    (post : List RawManifest)
    (hpre : ∀ m ∈ pre, isHostedClusterManifest m = false)
    (hel : isHostedClusterManifest el = true) :
    patchManifestWork (pre ++ el :: post)
      = Except.ok (pre ++ patchManifestElement el :: post) := by
  induction pre with
  | nil => simp [patchManifestWork, hel]
  | cons m rest ih =>
    have hm : isHostedClusterManifest m = false := hpre m (List.mem_cons_self m rest)
    have hrest : ∀ m' ∈ rest, isHostedClusterManifest m' = false :=
      fun m' hm' => hpre m' (List.mem_cons_of_mem m hm')
    simp [patchManifestWork, hm, ih hrest, Except.map]

/-
Helper lemmas about the scanner.
-/

theorem categorizeCluster_cases (hc : HostedCluster) :
    categorizeCluster hc = "needs-removal" ∨ categorizeCluster hc = "already-configured"
      ∨ categorizeCluster hc = "ready-for-migration" := by
  simp only [categorizeCluster]
  split
  · exact Or.inl rfl
  · split
    · exact Or.inr (Or.inl rfl)
    · exact Or.inr (Or.inr rfl)

theorem auditNamespace_ok_length (ns : String) (records : List HostedCluster)
    (info : hostedClusterAuditInfo) (h : auditNamespace ns records = Except.ok info) :
    records.length = 1 := by
  cases records with
  | nil => simp [auditNamespace, getHostedClusterInNamespace] at h
  | cons hc rest =>
    cases rest with
    | nil => rfl
    | cons hc2 rest2 => simp [auditNamespace, getHostedClusterInNamespace] at h

theorem auditNamespace_error_length (ns : String) (records : List HostedCluster)
    (e : String) (h : auditNamespace ns records = Except.error e) :
    records.length ≠ 1 := by
  cases records with
  | nil => simp
  | cons hc rest =>
    cases rest with
    | nil => simp [auditNamespace, getHostedClusterInNamespace] at h
    | cons hc2 rest2 => simp

theorem auditNamespace_category (ns : String) (records : List HostedCluster)
    (info : hostedClusterAuditInfo) (h : auditNamespace ns records = Except.ok info) :
    info.category = "needs-removal" ∨ info.category = "already-configured"
      ∨ info.category = "ready-for-migration" := by
  cases records with
  | nil => simp [auditNamespace, getHostedClusterInNamespace] at h
  | cons hc rest =>
    cases rest with
    | cons hc2 rest2 => simp [auditNamespace, getHostedClusterInNamespace] at h
    | nil =>
      simp only [auditNamespace, getHostedClusterInNamespace, Except.ok.injEq] at h
      rw [← h]
      exact categorizeCluster_cases hc

theorem addToBucket_proj (acc : auditResults) (info : hostedClusterAuditInfo) :
    (addToBucket acc info).mgmtClusterID = acc.mgmtClusterID ∧
    (addToBucket acc info).totalScanned = acc.totalScanned ∧
    (addToBucket acc info).errors = acc.errors ∧
    (addToBucket acc info).needsLabelRemoval = acc.needsLabelRemoval
      ++ (if info.category == "needs-removal" then [info] else []) ∧
    (addToBucket acc info).readyForMigration = acc.readyForMigration
      ++ (if info.category == "ready-for-migration" then [info] else []) ∧
    (addToBucket acc info).alreadyConfigured = acc.alreadyConfigured
      ++ (if info.category == "already-configured" then [info] else []) := by
  unfold addToBucket
  by_cases hc1 : info.category = "needs-removal"
  · simp [hc1]
  · by_cases hc2 : info.category = "ready-for-migration"
    · simp [hc1, hc2]
    · by_cases hc3 : info.category = "already-configured"
      · simp [hc1, hc2, hc3]
      · simp [hc1, hc2, hc3]

theorem scanLoop_characterize (recordsOf : String → List HostedCluster)
    (nss : List String) : ∀ acc : auditResults,
    (scanLoop recordsOf nss acc).mgmtClusterID = acc.mgmtClusterID ∧
    (scanLoop recordsOf nss acc).totalScanned = acc.totalScanned ∧
    (scanLoop recordsOf nss acc).errors = acc.errors ++ nss.filterMap (fun ns =>
        match auditNamespace ns (recordsOf ns) with
        | Except.error e => some ⟨ns, e⟩
        | Except.ok _ => none) ∧
    (scanLoop recordsOf nss acc).needsLabelRemoval = acc.needsLabelRemoval
      ++ nss.filterMap (fun ns =>
        match auditNamespace ns (recordsOf ns) with
        | Except.error _ => none
        | Except.ok info =>
          if info.category == "needs-removal" then some info else none) ∧
    (scanLoop recordsOf nss acc).readyForMigration = acc.readyForMigration
      ++ nss.filterMap (fun ns =>
        match auditNamespace ns (recordsOf ns) with
        | Except.error _ => none
        | Except.ok info =>
          if info.category == "ready-for-migration" then some info else none) ∧
    (scanLoop recordsOf nss acc).alreadyConfigured = acc.alreadyConfigured
      ++ nss.filterMap (fun ns =>
        match auditNamespace ns (recordsOf ns) with
        | Except.error _ => none
        | Except.ok info =>
          if info.category == "already-configured" then some info else none) := by
  induction nss with
  | nil => intro acc; simp [scanLoop]
  | cons ns rest ih =>
    intro acc
    cases haud : auditNamespace ns (recordsOf ns) with
    | error e =>
      have hstep : scanLoop recordsOf (ns :: rest) acc
          = scanLoop recordsOf rest { acc with errors := acc.errors ++ [⟨ns, e⟩] } := by
        simp [scanLoop, haud]
      rcases ih { acc with errors := acc.errors ++ [⟨ns, e⟩] } with ⟨h1, h2, h3, h4, h5, h6⟩
      rw [hstep]
      refine ⟨?_, ?_, ?_, ?_, ?_, ?_⟩
      · simp [h1]
      · simp [h2]
      · rw [h3]; simp [List.filterMap_cons, haud]
      · rw [h4]; simp [List.filterMap_cons, haud]
      · rw [h5]; simp [List.filterMap_cons, haud]
      · rw [h6]; simp [List.filterMap_cons, haud]
    | ok info =>
      have hstep : scanLoop recordsOf (ns :: rest) acc
          = scanLoop recordsOf rest (addToBucket acc info) := by
        simp [scanLoop, haud]
      rcases ih (addToBucket acc info) with ⟨h1, h2, h3, h4, h5, h6⟩
      rcases addToBucket_proj acc info with ⟨g1, g2, g3, g4, g5, g6⟩
      rw [hstep]
      refine ⟨?_, ?_, ?_, ?_, ?_, ?_⟩
      · rw [h1, g1]
      · rw [h2, g2]
      · rw [h3, g3]; simp [List.filterMap_cons, haud]
      · rw [h4, g4]
        cases hb : (info.category == "needs-removal") with
        | true =>
          have hbe := eq_of_beq hb
          simp [List.filterMap_cons, haud, hbe]
        | false =>
          have hbe : info.category ≠ "needs-removal" := by simpa using hb
          simp [List.filterMap_cons, haud, hbe]
      · rw [h5, g5]
        cases hb : (info.category == "ready-for-migration") with
        | true =>
          have hbe := eq_of_beq hb
          simp [List.filterMap_cons, haud, hbe]
        | false =>
          have hbe : info.category ≠ "ready-for-migration" := by simpa using hb
          simp [List.filterMap_cons, haud, hbe]
      · rw [h6, g6]
        cases hb : (info.category == "already-configured") with
        | true =>
          have hbe := eq_of_beq hb
          simp [List.filterMap_cons, haud, hbe]
        | false =>
          have hbe : info.category ≠ "already-configured" := by simpa using hb
          simp [List.filterMap_cons, haud, hbe]

theorem scan_buckets_count (recordsOf : String → List HostedCluster) (nss : List String) :
    (nss.filterMap (fun ns =>
        match auditNamespace ns (recordsOf ns) with
        | Except.error _ => none
        | Except.ok info =>
          if info.category == "needs-removal" then some info else none)).length
      + (nss.filterMap (fun ns =>
        match auditNamespace ns (recordsOf ns) with
        | Except.error _ => none
        | Except.ok info =>
          if info.category == "ready-for-migration" then some info else none)).length
      + (nss.filterMap (fun ns =>
        match auditNamespace ns (recordsOf ns) with
        | Except.error _ => none
        | Except.ok info =>
          if info.category == "already-configured" then some info else none)).length
      = (nss.filter (fun ns => (recordsOf ns).length == 1)).length := by
  induction nss with
  | nil => simp
  | cons ns rest ih =>
    cases haud : auditNamespace ns (recordsOf ns) with
    | error e =>
      have hlen : ((recordsOf ns).length == 1) = false := by
        have hne := auditNamespace_error_length ns (recordsOf ns) e haud
        simpa using hne
      simp only [List.filterMap_cons, List.filter_cons, haud, hlen]
      simpa using ih
    | ok info =>
      have hlen : ((recordsOf ns).length == 1) = true := by
        have heq := auditNamespace_ok_length ns (recordsOf ns) info haud
        simpa using heq
      rcases auditNamespace_category ns (recordsOf ns) info haud with hc | hc | hc <;>
      · simp only [List.filterMap_cons, List.filter_cons, haud, hlen, hc]
        simp at ih ⊢
        omega

/-
Helper lemmas about the classifier predicates.
-/

theorem hasRequiredAnnotations_iff (hc : HostedCluster) :
    hasRequiredAnnotations hc = true ↔
      (annLookup hc.annots "hypershift.openshift.io/topology"
          = some "dedicated-request-serving-components" ∧
        annLookup hc.annots "hypershift.openshift.io/resource-based-cp-auto-scaling"
          = some "true") := by
  cases hann : hc.annots with
  | none => simp [hasRequiredAnnotations, annLookup, hann]
  | some l => simp [hasRequiredAnnotations, annLookup, hann]

theorem categorizeCluster_already_iff (hc : HostedCluster)
    (h : annLookup hc.annots "hypershift.openshift.io/cluster-size-override" = none) :
    categorizeCluster hc = "already-configured" ↔
      (annLookup hc.annots "hypershift.openshift.io/topology"
          = some "dedicated-request-serving-components" ∧
        annLookup hc.annots "hypershift.openshift.io/resource-based-cp-auto-scaling"
          = some "true") := by
  by_cases hA : annLookup hc.annots "hypershift.openshift.io/topology"
      = some "dedicated-request-serving-components"
  · by_cases hB : annLookup hc.annots "hypershift.openshift.io/resource-based-cp-auto-scaling"
        = some "true"
    · simp [categorizeCluster, h, hA, hB]
    · simp [categorizeCluster, h, hA, hB]
  · simp [categorizeCluster, h, hA]

/-
Claim theorems.
-/

/-- C1: categorizeCluster is a total function of the record's annotation map
with a strict priority order: any value under the cluster-size-override key,
the empty string included, forces needs-removal regardless of all other keys;
otherwise the exact pair topology = "dedicated-request-serving-components" and
resource-based-cp-auto-scaling = "true" characterizes already-configured; every
other record, a nil or empty annotation map included, is ready-for-migration. -/
theorem C1_categorizeCluster_priority (hc : HostedCluster) :
    ((annLookup hc.annots "hypershift.openshift.io/cluster-size-override").isSome = true →
      categorizeCluster hc = "needs-removal") ∧
    (annLookup hc.annots "hypershift.openshift.io/cluster-size-override" = none →
      (categorizeCluster hc = "already-configured" ↔
        (annLookup hc.annots "hypershift.openshift.io/topology"
            = some "dedicated-request-serving-components" ∧
          annLookup hc.annots "hypershift.openshift.io/resource-based-cp-auto-scaling"
            = some "true"))) ∧
    (annLookup hc.annots "hypershift.openshift.io/cluster-size-override" = none →
      ¬(annLookup hc.annots "hypershift.openshift.io/topology"
            = some "dedicated-request-serving-components" ∧
          annLookup hc.annots "hypershift.openshift.io/resource-based-cp-auto-scaling"
            = some "true") →
      categorizeCluster hc = "ready-for-migration") ∧
    (hc.annots = none → categorizeCluster hc = "ready-for-migration") ∧
    (hc.annots = some [] → categorizeCluster hc = "ready-for-migration") := by
  refine ⟨?_, ?_, ?_, ?_, ?_⟩
  · intro h
    simp [categorizeCluster, h]
  · intro h
    exact categorizeCluster_already_iff hc h
  · intro h hn
    rcases categorizeCluster_cases hc with hcat | hcat | hcat
    · refine absurd hcat ?_
      simp only [categorizeCluster, h]
      simp
      split <;> simp
    · exact absurd ((categorizeCluster_already_iff hc h).mp hcat) hn
    · exact hcat
  · intro h
    simp [categorizeCluster, annLookup, h]
  · intro h
    simp [categorizeCluster, annLookup, h, lookupStr]

/-- Witness for C1 at three concrete annotation maps: an override key with
empty value beats the two configured keys; the configured pair alone is
already-configured; a nil map is ready-for-migration. -/
theorem C1_categorizeCluster_priority_witness :
    categorizeCluster { name := "a"
                        labels := []
                        annots := some [("hypershift.openshift.io/cluster-size-override", ""),
                          ("hypershift.openshift.io/topology",
                            "dedicated-request-serving-components"),
                          ("hypershift.openshift.io/resource-based-cp-auto-scaling", "true")] }
      = "needs-removal" ∧
    categorizeCluster { name := "b"
                        labels := []
                        annots := some [("hypershift.openshift.io/topology",
                            "dedicated-request-serving-components"),
                          ("hypershift.openshift.io/resource-based-cp-auto-scaling", "true")] }
      = "already-configured" ∧
    categorizeCluster { name := "c", labels := [], annots := none }
      = "ready-for-migration" := by
  refine ⟨?_, ?_, ?_⟩
  · exact (C1_categorizeCluster_priority _).1 (by rfl)
  · exact ((C1_categorizeCluster_priority _).2.1 (by rfl)).mpr ⟨by rfl, by rfl⟩
  · exact (C1_categorizeCluster_priority _).2.2.2.1 rfl

/-- C2: hasRequiredAnnotations holds exactly when the record's annotations map
topology to "dedicated-request-serving-components" and
resource-based-cp-auto-scaling to "true"; hence for every record without the
override key, categorizeCluster returns already-configured exactly when
hasRequiredAnnotations returns true. -/
theorem C2_hasRequiredAnnotations_matches_classifier (hc : HostedCluster) :
    (hasRequiredAnnotations hc = true ↔
      (annLookup hc.annots "hypershift.openshift.io/topology"
          = some "dedicated-request-serving-components" ∧
        annLookup hc.annots "hypershift.openshift.io/resource-based-cp-auto-scaling"
          = some "true")) ∧
    (annLookup hc.annots "hypershift.openshift.io/cluster-size-override" = none →
      (categorizeCluster hc = "already-configured" ↔ hasRequiredAnnotations hc = true)) := by
  refine ⟨hasRequiredAnnotations_iff hc, ?_⟩
  intro h
  exact (categorizeCluster_already_iff hc h).trans (hasRequiredAnnotations_iff hc).symm

/-- Witness for C2 at a concrete record without the override key: both the
classifier and the predicate accept the configured pair. -/
theorem C2_hasRequiredAnnotations_matches_classifier_witness :
    hasRequiredAnnotations { name := "b"
                             labels := []
                             annots := some [("hypershift.openshift.io/topology",
                                 "dedicated-request-serving-components"),
                               ("hypershift.openshift.io/resource-based-cp-auto-scaling",
                                 "true")] } = true ∧
    categorizeCluster { name := "b"
                        labels := []
                        annots := some [("hypershift.openshift.io/topology",
                            "dedicated-request-serving-components"),
                          ("hypershift.openshift.io/resource-based-cp-auto-scaling",
                            "true")] }
      = "already-configured" := by
  constructor
  · exact (C2_hasRequiredAnnotations_matches_classifier _).1.mpr ⟨by rfl, by rfl⟩
  · exact ((C2_hasRequiredAnnotations_matches_classifier _).2 (by rfl)).mpr
      ((C2_hasRequiredAnnotations_matches_classifier _).1.mpr ⟨by rfl, by rfl⟩)

/-- C8: during a scan every namespace resolving to zero or to more than one
record contributes exactly one entry to the error list (in scan order) and
scanning continues; resolution errors are exactly the namespaces whose record
count differs from one; total_scanned equals the sum of the three bucket sizes
and counts exactly the namespaces that resolved to one record, so erroring
namespaces are not counted as scanned. -/
theorem C8_runScan_errors_and_counts (mgmtID : String)
    (recordsOf : String → List HostedCluster) (nss : List String) :
    (runScan mgmtID recordsOf nss).errors = nss.filterMap (fun ns =>
        match auditNamespace ns (recordsOf ns) with
        | Except.error e => some ⟨ns, e⟩
        | Except.ok _ => none) ∧
    (∀ ns, (∃ e, auditNamespace ns (recordsOf ns) = Except.error e)
        ↔ (recordsOf ns).length ≠ 1) ∧
    (runScan mgmtID recordsOf nss).totalScanned
        = (runScan mgmtID recordsOf nss).needsLabelRemoval.length
          + (runScan mgmtID recordsOf nss).readyForMigration.length
          + (runScan mgmtID recordsOf nss).alreadyConfigured.length ∧
    (runScan mgmtID recordsOf nss).totalScanned
        = (nss.filter (fun ns => (recordsOf ns).length == 1)).length := by
  rcases scanLoop_characterize recordsOf nss
      { mgmtClusterID := mgmtID
        totalScanned := 0
        needsLabelRemoval := []
        readyForMigration := []
        alreadyConfigured := []
        errors := [] } with ⟨h1, h2, h3, h4, h5, h6⟩
  refine ⟨?_, ?_, ?_, ?_⟩
  · simp only [runScan]
    simpa using h3
  · intro ns
    constructor
    · rintro ⟨e, he⟩
      exact auditNamespace_error_length ns (recordsOf ns) e he
    · intro hne
      cases haud : auditNamespace ns (recordsOf ns) with
      | error e => exact ⟨e, rfl⟩
      | ok info => exact absurd (auditNamespace_ok_length ns (recordsOf ns) info haud) hne
  · simp only [runScan]
  · simp only [runScan]
    simp only [h4, h5, h6]
    simpa using scan_buckets_count recordsOf nss

/-- Witness for C8 at a concrete scan of three namespaces: one resolves to a
single record, one to none and one to two records; the scan reports exactly
two errors, continues through all namespaces, and counts one scanned record. -/
theorem C8_runScan_errors_and_counts_witness :
    (runScan "mc"
        (fun ns =>
          if ns == "ns1" then [{ name := "h1", labels := [], annots := none }]
          else if ns == "ns3" then
            [{ name := "h3", labels := [], annots := none },
             { name := "h4", labels := [], annots := none }]
          else [])
        ["ns1", "ns2", "ns3"]).errors
      = [{ nspace := "ns2", error := "no HostedCluster found" },
         { nspace := "ns3", error := "found 2 HostedClusters, expected 1" }] ∧
    (runScan "mc"
        (fun ns =>
          if ns == "ns1" then [{ name := "h1", labels := [], annots := none }]
          else if ns == "ns3" then
            [{ name := "h3", labels := [], annots := none },
             { name := "h4", labels := [], annots := none }]
          else [])
        ["ns1", "ns2", "ns3"]).totalScanned = 1 := by
  have hw := C8_runScan_errors_and_counts "mc"
    (fun ns =>
      if ns == "ns1" then [{ name := "h1", labels := [], annots := none }]
      else if ns == "ns3" then
        [{ name := "h3", labels := [], annots := none },
         { name := "h4", labels := [], annots := none }]
      else [])
    ["ns1", "ns2", "ns3"]
  constructor
  · rw [hw.1]; rfl
  · rw [hw.2.2.2]; rfl

/-- C9: for either valid filter category, applyFilter keeps only the requested
bucket, empties the other two, sets total_scanned to that bucket's size, and
carries the error list and the management-cluster identity over unchanged. -/
theorem C9_applyFilter_spec (showOnly : String) (results : auditResults)
    (h : showOnly = "needs-removal" ∨ showOnly = "ready-for-migration") :
    (applyFilter showOnly results).mgmtClusterID = results.mgmtClusterID ∧
    (applyFilter showOnly results).errors = results.errors ∧
    (showOnly = "needs-removal" →
      (applyFilter showOnly results).needsLabelRemoval = results.needsLabelRemoval ∧
      (applyFilter showOnly results).readyForMigration = [] ∧
      (applyFilter showOnly results).alreadyConfigured = [] ∧
      (applyFilter showOnly results).totalScanned = results.needsLabelRemoval.length) ∧
    (showOnly = "ready-for-migration" →
      (applyFilter showOnly results).readyForMigration = results.readyForMigration ∧
      (applyFilter showOnly results).needsLabelRemoval = [] ∧
      (applyFilter showOnly results).alreadyConfigured = [] ∧
      (applyFilter showOnly results).totalScanned = results.readyForMigration.length) := by
  rcases h with h | h <;> subst h
  · refine ⟨by simp [applyFilter], by simp [applyFilter], ?_, ?_⟩
    · intro h2
      simp [applyFilter]
    · intro h2
      exact absurd h2 (by simp)
  · refine ⟨by simp [applyFilter], by simp [applyFilter], ?_, ?_⟩
    · intro h2
      exact absurd h2 (by simp)
    · intro h2
      simp [applyFilter]

/-- Witness for C9 at a concrete audit result, filtered to ready-for-migration. -/
theorem C9_applyFilter_spec_witness :
    (applyFilter "ready-for-migration"
        { mgmtClusterID := "mc"
          totalScanned := 2
          needsLabelRemoval := [{ clusterID := "c1"
                                  clusterName := "n1"
                                  nspace := "ns1"
                                  currentSize := ""
                                  category := "needs-removal"
                                  labels := []
                                  annots := none }]
          readyForMigration := [{ clusterID := "c2"
                                  clusterName := "n2"
                                  nspace := "ns2"
                                  currentSize := ""
                                  category := "ready-for-migration"
                                  labels := []
                                  annots := none }]
          alreadyConfigured := []
          errors := [{ nspace := "ns3", error := "no HostedCluster found" }] }).totalScanned
      = 1 := by
  have hw := C9_applyFilter_spec "ready-for-migration"
    { mgmtClusterID := "mc"
      totalScanned := 2
      needsLabelRemoval := [{ clusterID := "c1"
                              clusterName := "n1"
                              nspace := "ns1"
                              currentSize := ""
                              category := "needs-removal"
                              labels := []
                              annots := none }]
      readyForMigration := [{ clusterID := "c2"
                              clusterName := "n2"
                              nspace := "ns2"
                              currentSize := ""
                              category := "ready-for-migration"
                              labels := []
                              annots := none }]
      alreadyConfigured := []
      errors := [{ nspace := "ns3", error := "no HostedCluster found" }] }
    (Or.inr rfl)
  exact (hw.2.2.2 rfl).2.2.2

/-- C5: the verifier returns success on the first satisfied fetch even
mid-interval; a failed or unsatisfied fetch keeps polling while the deadline
has not passed and surfaces the corresponding timeout failure once it has; a
trace of unsatisfied pre-deadline fetches ending in a post-deadline tick
times out; and a cancellation observed while waiting returns the cancellation
error, which is distinct from both timeout errors and wins over any later
timeout. -/
theorem C5_waitForSync_protocol :
    (∀ rest, waitForSync (Event.cancel :: rest) = some SyncOutcome.cancelled) ∧
    (∀ (b : Bool) (rest : List Event),
      waitForSync (Event.tick FetchOutcome.synced b :: rest) = some SyncOutcome.success) ∧
    (∀ rest, waitForSync (Event.tick FetchOutcome.fetchErr false :: rest) = waitForSync rest) ∧
    (∀ rest, waitForSync (Event.tick FetchOutcome.notSynced false :: rest)
        = waitForSync rest) ∧
    (∀ rest, waitForSync (Event.tick FetchOutcome.fetchErr true :: rest)
        = some SyncOutcome.timedOutFetch) ∧
    (∀ rest, waitForSync (Event.tick FetchOutcome.notSynced true :: rest)
        = some SyncOutcome.timedOutUnsynced) ∧
    (∀ unsat : List Event,
      (∀ e ∈ unsat, e = Event.tick FetchOutcome.fetchErr false
          ∨ e = Event.tick FetchOutcome.notSynced false) →
      ∀ last : Event,
        (last = Event.tick FetchOutcome.fetchErr true
          ∨ last = Event.tick FetchOutcome.notSynced true) →
        ∃ r, waitForSync (unsat ++ [last]) = some r ∧ r.isTimeout = true) ∧
    (SyncOutcome.cancelled.isTimeout = false ∧
      syncErrorMessage SyncOutcome.cancelled ≠ syncErrorMessage SyncOutcome.timedOutFetch ∧
      syncErrorMessage SyncOutcome.cancelled
        ≠ syncErrorMessage SyncOutcome.timedOutUnsynced) := by
  refine ⟨fun rest => rfl, fun b rest => rfl, fun rest => rfl, fun rest => rfl,
    fun rest => rfl, fun rest => rfl, ?_, by decide, by decide, by decide⟩
  intro unsat hunsat last hlast
  induction unsat with
  | nil =>
    rcases hlast with h | h <;> subst h
    · exact ⟨SyncOutcome.timedOutFetch, rfl, rfl⟩
    · exact ⟨SyncOutcome.timedOutUnsynced, rfl, rfl⟩
  | cons e rest ih =>
    have hrest : ∀ e' ∈ rest, e' = Event.tick FetchOutcome.fetchErr false
        ∨ e' = Event.tick FetchOutcome.notSynced false :=
      fun e' he' => hunsat e' (List.mem_cons_of_mem e he')
    rcases ih hrest with ⟨r, hr, hto⟩
    rcases hunsat e (List.mem_cons_self e rest) with h | h <;> subst h <;>
      exact ⟨r, by simpa [waitForSync] using hr, hto⟩

/-- Witness for C5: the concrete trace of two unsatisfied pre-deadline ticks
followed by a post-deadline unsatisfied tick times out. -/
theorem C5_waitForSync_protocol_witness :
    ∃ r, waitForSync [Event.tick FetchOutcome.fetchErr false,
        Event.tick FetchOutcome.notSynced false,
        Event.tick FetchOutcome.notSynced true] = some r ∧ r.isTimeout = true := by
  have hw := C5_waitForSync_protocol.2.2.2.2.2.2.1
    [Event.tick FetchOutcome.fetchErr false, Event.tick FetchOutcome.notSynced false]
    (by intro e he; simp at he; rcases he with h | h; exact Or.inl h; exact Or.inr h)
    (Event.tick FetchOutcome.notSynced true) (Or.inr rfl)
  simpa using hw

/-- C6 counterexample: the claimed pre-fetch deadline re-check does not exist
in waitForSync. On the concrete one-tick trace whose tick fires after the
deadline with a satisfied fetch, the code returns success, while the variant
with a deadline check before the fetch (waitForSyncPreCheck, modelled from the
claim's words) cuts the tick off and reports a timeout. -/
theorem C6_precheck_counterexample :
    waitForSync [Event.tick FetchOutcome.synced true] = some SyncOutcome.success ∧
    waitForSyncPreCheck [Event.tick FetchOutcome.synced true]
      = some SyncOutcome.timedOutUnsynced ∧
    waitForSync [Event.tick FetchOutcome.synced true]
      ≠ waitForSyncPreCheck [Event.tick FetchOutcome.synced true] := by
  refine ⟨rfl, rfl, by decide⟩

/-- C6 (amended): in the polling loop the deadline is re-checked independently
on every tick after a failed or negative fetch — there is no pre-fetch
deadline check — so every tick that fires has its fetch evaluated, and in
particular the last tick eligible before the deadline is never cut off by a
single overall timer. -/
theorem C6_deadline_checked_after_each_fetch :
    (∀ (b : Bool) (rest : List Event),
      waitForSync (Event.tick FetchOutcome.synced b :: rest) = some SyncOutcome.success) ∧
    (∀ rest, waitForSync (Event.tick FetchOutcome.fetchErr true :: rest)
        = some SyncOutcome.timedOutFetch) ∧
    (∀ rest, waitForSync (Event.tick FetchOutcome.notSynced true :: rest)
        = some SyncOutcome.timedOutUnsynced) ∧
    (∀ rest, waitForSync (Event.tick FetchOutcome.fetchErr false :: rest)
        = waitForSync rest) ∧
    (∀ rest, waitForSync (Event.tick FetchOutcome.notSynced false :: rest)
        = waitForSync rest) :=
  ⟨fun b rest => rfl, fun rest => rfl, fun rest => rfl, fun rest => rfl, fun rest => rfl⟩

/-- C10: on any tick, a fetch that observes the required annotations returns
success before the deadline is consulted, so a satisfied observation on a tick
firing after the deadline has elapsed is still reported as success and never as
one of the timeout outcomes. -/
theorem C10_satisfied_fetch_beats_deadline :
    (∀ rest, waitForSync (Event.tick FetchOutcome.synced true :: rest)
        = some SyncOutcome.success) ∧
    SyncOutcome.success.isTimeout = false :=
  ⟨fun _ => rfl, rfl⟩

/-- C7: the orchestrator yields exactly one result per candidate, in input
order, each equal to that candidate's own migrateCluster outcome; when the
patch fails the result is failed with the patch error and is the same whatever
the verifier would have answered (the verifier is never invoked); when the
patch succeeds, a successful verification gives status success with the
completion timestamp, and a verifier failure gives status failed with the
verifier's error; no candidate's failure stops the batch. -/
theorem C7_migrateClusters_spec (patchOf : hostedClusterAuditInfo → Option String)
    (syncOf : hostedClusterAuditInfo → SyncOutcome)
    (nowOf : hostedClusterAuditInfo → String)
    (candidates : List hostedClusterAuditInfo) :
    (migrateClusters patchOf syncOf nowOf candidates).length = candidates.length ∧
    (∀ (i : Nat) (hi : i < candidates.length)
        (hr : i < (migrateClusters patchOf syncOf nowOf candidates).length),
      (migrateClusters patchOf syncOf nowOf candidates)[i]
        = migrateCluster (patchOf candidates[i]) (syncOf candidates[i])
            (nowOf candidates[i]) candidates[i]) ∧
    (∀ (info : hostedClusterAuditInfo) (now : String) (e : String) (s : SyncOutcome),
      (migrateCluster (some e) s now info).status = "failed" ∧
      (migrateCluster (some e) s now info).error = "failed to patch ManifestWork: " ++ e ∧
      (migrateCluster (some e) s now info).verifiedAt = "" ∧
      (∀ s' : SyncOutcome, migrateCluster (some e) s now info
          = migrateCluster (some e) s' now info)) ∧
    (∀ (info : hostedClusterAuditInfo) (now : String),
      migrateCluster none SyncOutcome.success now info
        = { clusterID := info.clusterID
            clusterName := info.clusterName
            status := "success"
            error := ""
            verifiedAt := now }) ∧
    (∀ (info : hostedClusterAuditInfo) (now : String) (s : SyncOutcome) (msg : String),
      syncErrorMessage s = some msg →
      (migrateCluster none s now info).status = "failed" ∧
      (migrateCluster none s now info).error = "sync verification failed: " ++ msg ∧
      (migrateCluster none s now info).verifiedAt = "") := by
  refine ⟨List.length_map _ _, ?_, ?_, ?_, ?_⟩
  · intro i hi hr
    simp [migrateClusters]
  · intro info now e s
    refine ⟨rfl, rfl, rfl, fun s' => rfl⟩
  · intro info now
    rfl
  · intro info now s msg hmsg
    cases s <;> simp [syncErrorMessage] at hmsg <;> simp [migrateCluster, syncErrorMessage, hmsg]

/-- Witness for C7: a concrete two-candidate batch in which the first
candidate's patch fails and the second candidate patches and verifies,
produced exactly in input order with one result each. -/
theorem C7_migrateClusters_spec_witness :
    migrateClusters
        (fun c => if c.clusterID == "c1" then some "boom" else none)
        (fun _ => SyncOutcome.success)
        (fun _ => "2026-01-01T00:00:00Z")
        [{ clusterID := "c1"
           clusterName := "n1"
           nspace := "ns1"
           currentSize := ""
           category := "ready-for-migration"
           labels := []
           annots := none },
         { clusterID := "c2"
           clusterName := "n2"
           nspace := "ns2"
           currentSize := ""
           category := "ready-for-migration"
           labels := []
           annots := none }]
      = [{ clusterID := "c1"
           clusterName := "n1"
           status := "failed"
           error := "failed to patch ManifestWork: boom"
           verifiedAt := "" },
         { clusterID := "c2"
           clusterName := "n2"
           status := "success"
           error := ""
           verifiedAt := "2026-01-01T00:00:00Z" }] ∧
    (migrateCluster (some "boom") SyncOutcome.timedOutFetch "2026-01-01T00:00:00Z"
        { clusterID := "c1"
          clusterName := "n1"
          nspace := "ns1"
          currentSize := ""
          category := "ready-for-migration"
          labels := []
          annots := none }).status = "failed" := by
  constructor
  · have h2 := (C7_migrateClusters_spec
      (fun c => if c.clusterID == "c1" then some "boom" else none)
      (fun _ => SyncOutcome.success)
      (fun _ => "2026-01-01T00:00:00Z")
      [{ clusterID := "c1"
         clusterName := "n1"
         nspace := "ns1"
         currentSize := ""
         category := "ready-for-migration"
         labels := []
         annots := none },
       { clusterID := "c2"
         clusterName := "n2"
         nspace := "ns2"
         currentSize := ""
         category := "ready-for-migration"
         labels := []
         annots := none }]).2.1 0 (by decide) (by decide)
    rfl
  · exact ((C7_migrateClusters_spec
      (fun c => if c.clusterID == "c1" then some "boom" else none)
      (fun _ => SyncOutcome.success)
      (fun _ => "2026-01-01T00:00:00Z") []).2.2.1
        { clusterID := "c1"
          clusterName := "n1"
          nspace := "ns1"
          currentSize := ""
          category := "ready-for-migration"
          labels := []
          annots := none }
        "2026-01-01T00:00:00Z" "boom" SyncOutcome.timedOutFetch).1

/-- C3: the manifest loop fails with the not-found error exactly when no
element is a decodable JSON object whose kind is "HostedCluster" (nil Raw and
undecodable elements are skipped, never errors); otherwise it patches the
first matching element in place, leaving every earlier and later element
untouched even when several HostedCluster elements exist; the patch sets the
two target annotation keys to their fixed values, creating the missing
metadata and annotation levels, and changes no other key at any level. -/
theorem C3_patchManifestWork_spec (ms : List RawManifest) :
    ((patchManifestWork ms
        = Except.error "HostedCluster not found in ManifestWork manifests")
      ↔ ∀ m ∈ ms, isHostedClusterManifest m = false) ∧
    isHostedClusterManifest RawManifest.nilRaw = false ∧
    (∀ raw, isHostedClusterManifest (RawManifest.undecodable raw) = false) ∧
    (∀ pre el post,
      ms = pre ++ el :: post →
      (∀ m ∈ pre, isHostedClusterManifest m = false) →
      isHostedClusterManifest el = true →
      patchManifestWork ms = Except.ok (pre ++ patchManifestElement el :: post)) ∧
    (∀ fields : List (String × Json),
      lookupJ "hypershift.openshift.io/topology"
          (getObj "annotations" (getObj "metadata" (patchHostedClusterFields fields)))
        = some (Json.str "dedicated-request-serving-components") ∧
      lookupJ "hypershift.openshift.io/resource-based-cp-auto-scaling"
          (getObj "annotations" (getObj "metadata" (patchHostedClusterFields fields)))
        = some (Json.str "true") ∧
      (∀ k, (k == "metadata") = false →
        lookupJ k (patchHostedClusterFields fields) = lookupJ k fields) ∧
      (∀ k, (k == "annotations") = false →
        lookupJ k (getObj "metadata" (patchHostedClusterFields fields))
          = lookupJ k (getObj "metadata" fields)) ∧
      (∀ k, (k == "hypershift.openshift.io/topology") = false →
        (k == "hypershift.openshift.io/resource-based-cp-auto-scaling") = false →
        lookupJ k (getObj "annotations" (getObj "metadata" (patchHostedClusterFields fields)))
          = lookupJ k (getObj "annotations" (getObj "metadata" fields)))) := by
  refine ⟨patchManifestWork_error_iff ms, rfl, fun raw => rfl, ?_, ?_⟩
  · intro pre el post hms hpre hel
    rw [hms]
    exact patchManifestWork_first_match pre el post hpre hel
  · intro fields
    refine ⟨?_, ?_, ?_, ?_, ?_⟩
    · simp only [patchHostedClusterFields, getObj_setKey_self]
      rw [lookupJ_setKey_other "hypershift.openshift.io/resource-based-cp-auto-scaling"
        "hypershift.openshift.io/topology" (by decide)]
      exact lookupJ_setKey_self _ _ _
    · simp only [patchHostedClusterFields, getObj_setKey_self]
      exact lookupJ_setKey_self _ _ _
    · intro k hk
      simp only [patchHostedClusterFields]
      exact lookupJ_setKey_other "metadata" k hk _ _
    · intro k hk
      simp only [patchHostedClusterFields, getObj_setKey_self]
      exact lookupJ_setKey_other "annotations" k hk _ _
    · intro k hk1 hk2
      simp only [patchHostedClusterFields, getObj_setKey_self]
      rw [lookupJ_setKey_other "hypershift.openshift.io/resource-based-cp-auto-scaling"
        k hk2]
      exact lookupJ_setKey_other "hypershift.openshift.io/topology" k hk1 _ _

/-- Witness for C3: a concrete manifest list of one nil-Raw, one undecodable
and one Secret element fails with the not-found error; a concrete list with a
Secret followed by two HostedCluster elements patches exactly the first
HostedCluster and keeps the other elements as they are. -/
theorem C3_patchManifestWork_spec_witness :
    patchManifestWork [RawManifest.nilRaw, RawManifest.undecodable "oops",
        RawManifest.decoded (Json.str "not-an-object"),
        RawManifest.decoded (Json.obj [("kind", Json.str "Secret")])]
      = Except.error "HostedCluster not found in ManifestWork manifests" ∧
    patchManifestWork [RawManifest.decoded (Json.obj [("kind", Json.str "Secret")]),
        RawManifest.decoded (Json.obj [("kind", Json.str "HostedCluster")]),
        RawManifest.decoded (Json.obj [("kind", Json.str "HostedCluster"),
          ("keep", Json.null)])]
      = Except.ok [RawManifest.decoded (Json.obj [("kind", Json.str "Secret")]),
        patchManifestElement
          (RawManifest.decoded (Json.obj [("kind", Json.str "HostedCluster")])),
        RawManifest.decoded (Json.obj [("kind", Json.str "HostedCluster"),
          ("keep", Json.null)])] := by
  constructor
  · refine (C3_patchManifestWork_spec _).1.mpr ?_
    intro m hm
    simp at hm
    rcases hm with h | h | h | h <;> subst h <;> rfl
  · refine (C3_patchManifestWork_spec _).2.2.2.1
      [RawManifest.decoded (Json.obj [("kind", Json.str "Secret")])]
      (RawManifest.decoded (Json.obj [("kind", Json.str "HostedCluster")]))
      [RawManifest.decoded (Json.obj [("kind", Json.str "HostedCluster"),
        ("keep", Json.null)])]
      rfl ?_ rfl
    intro m hm
    simp at hm
    subst hm
    rfl

/-- C4: the in-memory patch transformation is idempotent on serialized
content: re-running patchManifestWork on an already-patched manifest list
returns that list unchanged, byte for byte, since the two annotation keys are
set to fixed literal values regardless of prior state. -/
theorem C4_patchManifestWork_idempotent (ms ms' : List RawManifest)
    (h : patchManifestWork ms = Except.ok ms') :
    patchManifestWork ms' = Except.ok ms' := by
  induction ms generalizing ms' with
  | nil => simp [patchManifestWork] at h
  | cons m rest ih =>
    cases hm : isHostedClusterManifest m with
    | true =>
      simp only [patchManifestWork, hm, if_true] at h
      cases h
      simp only [patchManifestWork, isHostedClusterManifest_patch, hm, if_true,
        patchManifestElement_idem]
    | false =>
      simp only [patchManifestWork, hm, Bool.false_eq_true, if_false] at h
      cases hrest : patchManifestWork rest with
      | error e =>
        rw [hrest] at h
        simp [Except.map] at h
      | ok tail =>
        rw [hrest] at h
        simp only [Except.map] at h
        cases h
        simp only [patchManifestWork, hm, Bool.false_eq_true, if_false, ih tail hrest,
          Except.map]

/-- Witness for C4: a concrete single-element manifest list patches to a fixed
list, and patching that result again returns it unchanged. -/
theorem C4_patchManifestWork_idempotent_witness :
    patchManifestWork [RawManifest.decoded (Json.obj [("kind", Json.str "HostedCluster")])]
      = Except.ok [RawManifest.decoded (Json.obj [("kind", Json.str "HostedCluster"),
          ("metadata", Json.obj [("annotations", Json.obj
            [("hypershift.openshift.io/topology",
               Json.str "dedicated-request-serving-components"),
             ("hypershift.openshift.io/resource-based-cp-auto-scaling",
               Json.str "true")])])])] ∧
    patchManifestWork [RawManifest.decoded (Json.obj [("kind", Json.str "HostedCluster"),
        ("metadata", Json.obj [("annotations", Json.obj
          [("hypershift.openshift.io/topology",
             Json.str "dedicated-request-serving-components"),
           ("hypershift.openshift.io/resource-based-cp-auto-scaling",
             Json.str "true")])])])]
      = Except.ok [RawManifest.decoded (Json.obj [("kind", Json.str "HostedCluster"),
        ("metadata", Json.obj [("annotations", Json.obj
          [("hypershift.openshift.io/topology",
             Json.str "dedicated-request-serving-components"),
           ("hypershift.openshift.io/resource-based-cp-auto-scaling",
             Json.str "true")])])])] := by
  constructor
  · rfl
  · exact C4_patchManifestWork_idempotent
      [RawManifest.decoded (Json.obj [("kind", Json.str "HostedCluster")])] _ rfl
